import Mathlib

/-!
Verification development for the NOVA three-layer cognitive architecture
(`src/predictive_coding/04_kafka_nova_ollama.py`).

The Python source is shallowly embedded:

* Python dict values that flow through the layers become the inductive `Val`
  (strings, rationals for `time.time()` floats, lists of strings, and nested
  dicts as association lists).
* The external Ollama chat backend (`AsyncClient.chat`) is an external
  collaborator; each call's outcome is modelled by an oracle function
  `ChatFun : String → String → Except String String` taking the system prompt
  and the user prompt and returning either the completion text or the message
  of the raised exception.
* Each layer's `process` body (the code inside the `@timed_process` decorator)
  becomes a pure function from the layer's mutable state and the message to
  the new state, the user prompt actually handed to the backend, and an
  `Except` capturing either the returned dict or the raised
  `NOVALayerError` message.
* `time.time()` samples become explicit rational parameters; the two samples
  of one `timed_process` invocation are taken in program order, so clock
  monotonicity is expressed as a `start ≤ end` hypothesis where needed.
-/

/-- A Python value as it appears in the layer results: a string, a number
(`time.time()` floats modelled as rationals), a list of strings (the history
and pattern snapshots), or a dict (association list in insertion order). -/
inductive Val where
  | str : String → Val
  | num : ℚ → Val
  | listStr : List String → Val
  | dict : List (String × Val) → Val

/-- A Python dict with string keys, in insertion order. -/
abbrev Dict := List (String × Val)

/-- Python `l[-n:]`: the suffix of the last `n` elements (the whole list when
it is shorter than `n`). -/
def takeLast (n : Nat) (l : List α) : List α :=
  l.drop (l.length - n)

/-- Lookup of a key in a dict (first occurrence, as in a Python dict). -/
def dictGet : Dict → String → Option Val
  | [], _ => none
  | (k', v) :: rest, k => if k' = k then some v else dictGet rest k

/-- Python dict assignment `d[k] = v` (also the effect of `d.update` for one
key): replace the value at an existing key in place, otherwise append the new
key at the end. -/
def setKey : Dict → String → Val → Dict
  | [], k, v => [(k, v)]
  | (k', v') :: rest, k, v =>
      if k' = k then (k, v) :: rest else (k', v') :: setKey rest k v

/-- The chat backend oracle: system prompt and user prompt to either the
completion text (`ok`) or the message of the exception the call raised
(`error`). The source's per-call options (temperature, `num_predict`) do not
affect any property considered here and are not modelled. -/
abbrev ChatFun := String → String → Except String String

/-- Module-level `MODEL_NAME` constant from the source. -/
def MODEL_NAME : String := "llama3.2:latest"

/-- An input message. The layers read only the content field, via
`message.get` with key "content" and default ""; `content` records whether
that key is present and its string value. Other fields of the message are
never read by the core. -/
structure Message where
  content : Option String

/-- The expression `message.get` at key "content" with default "". -/
def getContent (m : Message) : String :=
  m.content.getD ""

/-- Outcome of one (undecorated) stage `process` body on a stateful layer:
the layer's buffer after the call, the user prompt that was handed to the
chat backend, and the returned dict or the raised error's message. -/
structure StageCall where
  newState : List String
  prompt : String
  output : Except String Val

/-- ReactiveLayer's system prompt (source lines 214-220). -/
def reactiveSystemPrompt : String :=
  "You are a reactive processor that gives IMMEDIATE, VERY SHORT responses.\n        Rules:\n        1. Respond in 10 words or less\n        2. Focus only on immediate action or reaction\n        3. No explanations or analysis\n        4. Be direct and clear\n        5. Use imperative form when appropriate"

/-- ResponsiveLayer's system prompt (source lines 262-264). -/
def responsiveSystemPrompt : String :=
  "You are a responsive processor that considers immediate \n        context and gives thoughtful, measured responses. Balance between quick response \n        and careful consideration."

/-- ReflectiveLayer's system prompt (source lines 312-313). -/
def reflectiveSystemPrompt : String :=
  "You are a reflective processor focused on deep analysis, \n        pattern recognition, and learning. Consider long-term implications and generate insights."

/-- The user prompt the Reactive layer passes to the backend: the bare
message content (source line 231). -/
def ReactiveLayer.promptOf (msg : Message) : String :=
  getContent msg

/-- ReactiveLayer.process body (source lines 223-246), undecorated: one
backend call on the message content; no layer state. On backend failure the
body raises `NOVALayerError("Reactive processing failed: ...")`. -/
def ReactiveLayer.process (msg : Message) (chat : ChatFun) : Except String Val :=
  match chat reactiveSystemPrompt (ReactiveLayer.promptOf msg) with
  | Except.ok resp =>
      Except.ok (Val.dict
        [("type", Val.str "reactive_response"),
         ("content", Val.str resp),
         ("source", Val.str MODEL_NAME)])
  | Except.error e => Except.error ("Reactive processing failed: " ++ e)

/-- The `context_prompt` f-string of ResponsiveLayer.process (source line
275), as a function of the history buffer it reads. -/
def responsiveContextPrompt (history : List String) (content : String) : String :=
  "Previous context: " ++ String.intercalate " | " history ++ "\nCurrent input: " ++ content

/-- The user prompt the Responsive layer passes to the backend, as a function
of the buffer *before* the call: the source appends the current content and
truncates to the last 5 entries first (lines 272-273), and only then builds
`context_prompt` from the updated buffer (line 275). -/
def ResponsiveLayer.promptOf (history : List String) (msg : Message) : String :=
  responsiveContextPrompt (takeLast 5 (history ++ [getContent msg])) (getContent msg)

/-- ResponsiveLayer.process body (source lines 268-296), undecorated. State
is `self.context_history`. The append-and-truncate happens before the backend
call, so the new buffer is the same on the success and the failure path; on
backend failure the body raises
`NOVALayerError("Responsive processing failed: ...")`. -/
def ResponsiveLayer.process (history : List String) (msg : Message) (chat : ChatFun) :
    StageCall :=
  let content := getContent msg
  let history' := takeLast 5 (history ++ [content])
  let prompt := ResponsiveLayer.promptOf history msg
  match chat responsiveSystemPrompt prompt with
  | Except.ok resp =>
      { newState := history'
        prompt := prompt
        output := Except.ok (Val.dict
          [("type", Val.str "responsive_response"),
           ("content", Val.str resp),
           ("context", Val.listStr history'),
           ("source", Val.str MODEL_NAME)]) }
  | Except.error e =>
      { newState := history'
        prompt := prompt
        output := Except.error ("Responsive processing failed: " ++ e) }

/-- The `analysis_prompt` f-string of ReflectiveLayer.process (source lines
323-328), with the triple-quoted literal's embedded indentation, as a
function of the `patterns_context` interpolation and the content. -/
def reflectiveAnalysisPrompt (patternsContext : String) (content : String) : String :=
  "Analyze this input deeply, considering these previous patterns:\n            " ++
    patternsContext ++
    "\n            \n            Current input: " ++ content ++
    "\n            \n            Identify new patterns, insights, or learning opportunities."

/-- The user prompt the Reflective layer passes to the backend:
`patterns_context` is built from the last 3 entries of the pattern buffer
(source line 321) before the backend call. -/
def ReflectiveLayer.promptOf (patterns : List String) (msg : Message) : String :=
  reflectiveAnalysisPrompt (String.intercalate "\n" (takeLast 3 patterns)) (getContent msg)

/-- ReflectiveLayer.process body (source lines 317-349), undecorated. State
is `self.learned_patterns`. On success the new completion is *appended* to
the buffer (line 339) — the source performs no truncation of the stored
buffer, only its reads take `[-3:]` — and the returned `patterns` snapshot is
the last 3 entries of the updated buffer (line 344). On backend failure the
append is never reached, so the buffer is unchanged, and the body raises
`NOVALayerError("Reflective processing failed: ...")`. -/
def ReflectiveLayer.process (patterns : List String) (msg : Message) (chat : ChatFun) :
    StageCall :=
  let prompt := ReflectiveLayer.promptOf patterns msg
  match chat reflectiveSystemPrompt prompt with
  | Except.ok resp =>
      let patterns' := patterns ++ [resp]
      { newState := patterns'
        prompt := prompt
        output := Except.ok (Val.dict
          [("type", Val.str "reflective_update"),
           ("content", Val.str resp),
           ("patterns", Val.listStr (takeLast 3 patterns')),
           ("source", Val.str MODEL_NAME)]) }
  | Except.error e =>
      { newState := patterns
        prompt := prompt
        output := Except.error ("Reflective processing failed: " ++ e) }

/-- The `timed_process` decorator (source lines 81-115) around one call whose
two `time.time()` samples are `startTime` and `endTime` and whose undecorated
body produced `r`: on success it merges `start_time`, `end_time` and
`processing_duration = end_time - start_time` into the result when the result
is a dict (`result.update`, lines 91-99), otherwise wraps the bare value
(lines 100-106); on failure it re-raises
`NOVALayerError("Layer processing failed: ...")` carrying the cause's message
(line 113). -/
def timed_process (startTime endTime : ℚ) (r : Except String Val) : Except String Val :=
  match r with
  | Except.error e => Except.error ("Layer processing failed: " ++ e)
  | Except.ok (Val.dict d) =>
      Except.ok (Val.dict
        (setKey (setKey (setKey d "start_time" (Val.num startTime))
            "end_time" (Val.num endTime))
          "processing_duration" (Val.num (endTime - startTime))))
  | Except.ok v =>
      Except.ok (Val.dict
        [("result", v),
         ("start_time", Val.num startTime),
         ("end_time", Val.num endTime),
         ("processing_duration", Val.num (endTime - startTime))])

/-- Mutable state of the NOVA orchestrator that the layer bodies read and
write across rounds: `self.responsive.context_history` and
`self.reflective.learned_patterns` (the Reactive layer is stateless). -/
structure NOVAState where
  context_history : List String
  learned_patterns : List String

/-- One per-stage entry of the `results` dict of `NOVA.process_message`: the
awaited value when the wrapped `process` returned, or the
`{"type": f"<name>_error", "content": str(e)}` dict built in the `except`
arm (source line 381) when it raised. -/
def stageEntry (name : String) (r : Except String Val) : Val :=
  match r with
  | Except.ok v => v
  | Except.error e =>
      Val.dict [("type", Val.str (name ++ "_error")), ("content", Val.str e)]

/-- The fixed order in which `NOVA.process_message` iterates the layers, both
for awaiting the stage coroutines (lines 369-373, dict insertion order) and
for the post-round producer flushes (line 384). -/
def layerOrder : List String := ["reactive", "responsive", "reflective"]

/-- The post-round flush loop (source lines 383-388). `flushOut` gives, for
each layer name, `none` when `layer.producer.flush()` returns and `some e`
when it raises. Returns the list of layers whose flush was actually invoked,
in order, and the propagated exception message, if any: a raising flush
aborts the loop, so later layers are not flushed. -/
def flushSeq (flushOut : String → Option String) : List String → List String × Option String
  | [] => ([], none)
  | n :: rest =>
      match flushOut n with
      | some e => ([n], some e)
      | none =>
          let r := flushSeq flushOut rest
          (n :: r.1, r.2)

/-- Everything observable about one `NOVA.process_message` round: the
orchestrator state after the round, the aggregated `results` dict, the
sequential trace of stage executions, the producers actually flushed, and
the flush exception that propagated out of `process_message`, if any. -/
structure RoundOutcome where
  state : NOVAState
  results : Dict
  events : List String
  flushed : List String
  flushError : Option String

/-- NOVA.process_message (source lines 365-391).

The `tasks` dict (lines 369-373) holds *bare coroutine objects* — the layer
`process` coroutines are not wrapped in `asyncio.Task`s and are therefore not
scheduled until awaited. The loop `results[name] = await task` (lines
376-381) hence runs each stage to completion, in dict insertion order, before
the next one starts: with no other task on the event loop, stage executions
never interleave. `events` records that sequential trace. Each await is
guarded by `try/except Exception`, which converts a raising stage into a
`{"type": f"<name>_error", "content": str(e)}` entry and continues with the
next stage. After all three entries exist, the producers are flushed in the
fixed layer order; a flush exception is re-raised (line 388).

`chatR`/`chatS`/`chatF` are the backend oracles of the three layers; `tR`/
`tS`/`tF` are the `(start_time, end_time)` pairs sampled by each layer's
`timed_process` wrapper. -/
def NOVA.process_message (st : NOVAState) (msg : Message)
    (chatR chatS chatF : ChatFun) (tR tS tF : ℚ × ℚ)
    (flushOut : String → Option String) : RoundOutcome :=
  let r := ReactiveLayer.process msg chatR
  let s := ResponsiveLayer.process st.context_history msg chatS
  let f := ReflectiveLayer.process st.learned_patterns msg chatF
  let results : Dict :=
    [("reactive", stageEntry "reactive" (timed_process tR.1 tR.2 r)),
     ("responsive", stageEntry "responsive" (timed_process tS.1 tS.2 s.output)),
     ("reflective", stageEntry "reflective" (timed_process tF.1 tF.2 f.output))]
  let fl := flushSeq flushOut layerOrder
  { state := { context_history := s.newState, learned_patterns := f.newState }
    results := results
    events :=
      ["reactive_started", "reactive_settled",
       "responsive_started", "responsive_settled",
       "reflective_started", "reflective_settled"]
    flushed := fl.1
    flushError := fl.2 }

/-- What the caller of `process_message` receives: the aggregated `results`
dict when the round completes, or the flush exception when the post-round
flush raised (the `raise` on source line 388 propagates out of
`process_message`). -/
def returnValue (out : RoundOutcome) : Except String Dict :=
  match out.flushError with
  | some e => Except.error e
  | none => Except.ok out.results

/-- An arbitrary sequence of calls to `ResponsiveLayer.process`, threading
the `context_history` buffer: each input is the message of one call paired
with the backend oracle in force for that call. -/
def responsiveRun (init : List String) (inputs : List (Message × ChatFun)) : List String :=
  inputs.foldl (fun h i => (ResponsiveLayer.process h i.1 i.2).newState) init

/-- An arbitrary sequence of calls to `ReflectiveLayer.process`, threading
the `learned_patterns` buffer. -/
def reflectiveRun (init : List String) (inputs : List (Message × ChatFun)) : List String :=
  inputs.foldl (fun p i => (ReflectiveLayer.process p i.1 i.2).newState) init

/-- State of the external Kafka producer handle. Modelled from the spec:
the broker client (`confluent_kafka.Producer`) is an external collaborator,
specified only through its interface — `produce` enqueues a message without
blocking, `flush` blocks until every pending message is acknowledged or has
failed. `pending` is the enqueued-but-unsettled queue, `delivered` the
settled publish log. -/
structure ProducerState where
  pending : List (String × Dict)
  delivered : List (String × Dict)

/-- Modelled from the spec: `Producer.produce` enqueues the serialized
message for the topic. The canonical byte serialization (`json.dumps`) is
irrelevant to the properties here, so the payload is kept structurally. -/
def produceMsg (p : ProducerState) (topic : String) (payload : Dict) : ProducerState :=
  { p with pending := p.pending ++ [(topic, payload)] }

/-- Modelled from the spec: `Producer.flush` blocks until all pending
publishes settle. -/
def flushProducer (p : ProducerState) : ProducerState :=
  { pending := [], delivered := p.delivered ++ p.pending }

/-- State of the external Kafka consumer handle; the only operation the core
invokes on it is `close`, which is idempotent per the spec's bus contract. -/
structure ConsumerState where
  isOpen : Bool

/-- A layer's pair of bus handles (`self.producer`, `self.consumer`),
acquired in `NOVALayer.__init__`. -/
structure LayerHandle where
  producer : ProducerState
  consumer : ConsumerState

/-- NOVALayer.close (source lines 139-148): flush the producer — the
producer handle itself is never closed or marked — then close the
consumer. -/
def NOVALayer.close (h : LayerHandle) : LayerHandle :=
  { producer := flushProducer h.producer
    consumer := { isOpen := false } }

/-- NOVALayer.publish (source lines 158-179): `produce` the serialized
message to the topic, then a non-blocking `poll(0)` (which only runs
delivery callbacks and does not change the modelled state). The method
consults no closed-flag: it behaves identically before and after
`NOVALayer.close`. -/
def NOVALayer.publish (h : LayerHandle) (topic : String) (message : Dict) : LayerHandle :=
  { h with producer := produceMsg h.producer topic message }

/-! ## Helper lemmas -/

theorem takeLast_length_le (n : Nat) (l : List α) : (takeLast n l).length ≤ n := by
  simp only [takeLast, List.length_drop]
  omega

theorem takeLast_concat (n : Nat) (hn : 0 < n) (l : List α) (a : α) :
    takeLast n (l ++ [a]) = takeLast (n - 1) l ++ [a] := by
  unfold takeLast
  rw [List.length_append, List.length_singleton,
    List.drop_append_of_le_length (by omega)]
  congr 2
  omega

theorem takeLast_concat_getLast (n : Nat) (hn : 0 < n) (l : List α) (a : α) :
    (takeLast n (l ++ [a])).getLast? = some a := by
  rw [takeLast_concat n hn, List.getLast?_concat]

theorem dictGet_setKey_self (d : Dict) (k : String) (v : Val) :
    dictGet (setKey d k v) k = some v := by
  induction d with
  | nil => simp [setKey, dictGet]
  | cons p rest ih =>
      obtain ⟨k', v'⟩ := p
      by_cases h : k' = k
      · simp [setKey, h, dictGet]
      · simp [setKey, h, dictGet, ih]

theorem dictGet_setKey_ne (d : Dict) (k k0 : String) (v : Val) (h : k0 ≠ k) :
    dictGet (setKey d k v) k0 = dictGet d k0 := by
  have h' : ¬ (k = k0) := fun he => h he.symm
  induction d with
  | nil => simp [setKey, dictGet, h']
  | cons p rest ih =>
      obtain ⟨k', v'⟩ := p
      by_cases hk : k' = k
      · subst hk
        simp [setKey, dictGet, h']
      · simp [setKey, hk, dictGet, ih]

theorem responsiveRun_nil (init : List String) : responsiveRun init [] = init := rfl

theorem responsiveRun_cons (init : List String) (i : Message × ChatFun)
    (rest : List (Message × ChatFun)) :
    responsiveRun init (i :: rest)
      = responsiveRun ((ResponsiveLayer.process init i.1 i.2).newState) rest := rfl

theorem responsiveRun_concat (init : List String) (is0 : List (Message × ChatFun))
    (m : Message) (c : ChatFun) :
    responsiveRun init (is0 ++ [(m, c)])
      = (ResponsiveLayer.process (responsiveRun init is0) m c).newState := by
  simp [responsiveRun, List.foldl_append]

theorem ResponsiveLayer.process_newState (history : List String) (msg : Message)
    (chat : ChatFun) :
    (ResponsiveLayer.process history msg chat).newState
      = takeLast 5 (history ++ [getContent msg]) := by
  rcases hEq : chat responsiveSystemPrompt (ResponsiveLayer.promptOf history msg) with e | r <;>
    simp [ResponsiveLayer.process, hEq]

theorem ResponsiveLayer.process_prompt (history : List String) (msg : Message)
    (chat : ChatFun) :
    (ResponsiveLayer.process history msg chat).prompt
      = ResponsiveLayer.promptOf history msg := by
  rcases hEq : chat responsiveSystemPrompt (ResponsiveLayer.promptOf history msg) with e | r <;>
    simp [ResponsiveLayer.process, hEq]

theorem responsiveRun_length_le (inputs : List (Message × ChatFun)) (init : List String)
    (hinit : init.length ≤ 5) : (responsiveRun init inputs).length ≤ 5 := by
  induction inputs generalizing init with
  | nil => simpa [responsiveRun] using hinit
  | cons i rest ih =>
      rw [responsiveRun_cons]
      refine ih _ ?_
      rw [ResponsiveLayer.process_newState]
      exact takeLast_length_le 5 _

theorem setKey_fresh_append (d : Dict) (k : String) (v : Val) (h : ∀ p ∈ d, p.1 ≠ k) :
    setKey d k v = d ++ [(k, v)] := by
  induction d with
  | nil => rfl
  | cons p rest ih =>
      obtain ⟨k', v'⟩ := p
      have hk : k' ≠ k := h (k', v') (by simp)
      simp only [setKey, if_neg hk, List.cons_append, List.cons.injEq, true_and]
      exact ih (fun q hq => h q (by simp [hq]))

/-- The three timing fields that `timed_process` merges into (or wraps
around) a successful result, for the pair `t` of `time.time()` samples. -/
def timingFields (t : ℚ × ℚ) : Dict :=
  [("start_time", Val.num t.1), ("end_time", Val.num t.2),
   ("processing_duration", Val.num (t.2 - t.1))]

/-- The fully wrapped Reactive success entry as the orchestrator stores it:
the dict returned by the layer body with the timing fields appended by
`timed_process`. -/
def reactiveSuccessEntry (resp : String) (t : ℚ × ℚ) : Val :=
  Val.dict ([("type", Val.str "reactive_response"), ("content", Val.str resp),
    ("source", Val.str MODEL_NAME)] ++ timingFields t)

/-- The fully wrapped Responsive success entry, with the buffer snapshot
`ctx`. -/
def responsiveSuccessEntry (resp : String) (ctx : List String) (t : ℚ × ℚ) : Val :=
  Val.dict ([("type", Val.str "responsive_response"), ("content", Val.str resp),
    ("context", Val.listStr ctx), ("source", Val.str MODEL_NAME)] ++ timingFields t)

/-- The fully wrapped Reflective success entry, with the pattern snapshot
`pats`. -/
def reflectiveSuccessEntry (resp : String) (pats : List String) (t : ℚ × ℚ) : Val :=
  Val.dict ([("type", Val.str "reflective_update"), ("content", Val.str resp),
    ("patterns", Val.listStr pats), ("source", Val.str MODEL_NAME)] ++ timingFields t)

/-- The per-stage error entry the orchestrator stores for a raising stage:
`type` is the stage name tagged `_error`, `content` is the message of the
`NOVALayerError` re-raised by `timed_process`, which carries the layer body's
own error message. -/
def layerErrorEntry (name innerMsg : String) : Val :=
  Val.dict [("type", Val.str (name ++ "_error")),
    ("content", Val.str ("Layer processing failed: " ++ innerMsg))]

/-! ## Concrete inputs used by witnesses and counterexamples -/

/-- A concrete input message. -/
def msgW : Message := { content := some "test input" }

/-- A backend oracle whose calls always succeed with a fixed completion. -/
def chatOkW : ChatFun := fun _ _ => Except.ok "fine"

/-- A backend oracle whose calls always raise. -/
def chatErrW : ChatFun := fun _ _ => Except.error "boom"

/-- Flush outcomes in which every producer flush returns normally. -/
def flushOkW : String → Option String := fun _ => none

/-- Flush outcomes in which the first producer flush raises. -/
def flushFailW : String → Option String :=
  fun n => if n = "reactive" then some "kafka down" else none

/-! ## Claims -/

/-- C5: for every successful call to a stage's wrapped `process` — that is,
`timed_process` around a body that returned `v`, with the two `time.time()`
samples `s` then `e` taken in program order (`s ≤ e`) — the returned result
is a dict satisfying `start_time = s`, `end_time = e ≥ s` and
`processing_duration = e - s`; the timing fields are merged into the body's
result when that result is a dict, and otherwise the bare value is wrapped
as a result/start_time/end_time/processing_duration dict. -/
theorem timed_process_timing (s e : ℚ) (hse : s ≤ e) (v : Val) :
    ∃ d : Dict,
      timed_process s e (Except.ok v) = Except.ok (Val.dict d)
      ∧ dictGet d "start_time" = some (Val.num s)
      ∧ dictGet d "end_time" = some (Val.num e)
      ∧ dictGet d "processing_duration" = some (Val.num (e - s))
      ∧ s ≤ e
      ∧ (∀ d0 : Dict, v = Val.dict d0 →
          d = setKey (setKey (setKey d0 "start_time" (Val.num s)) "end_time" (Val.num e))
                "processing_duration" (Val.num (e - s)))
      ∧ ((∀ d0 : Dict, v ≠ Val.dict d0) →
          d = [("result", v)] ++ timingFields (s, e)) := by
  cases v with
  | dict d0 =>
      refine ⟨_, rfl, ?_, ?_, ?_, hse, ?_, ?_⟩
      · rw [dictGet_setKey_ne _ _ _ _ (by decide), dictGet_setKey_ne _ _ _ _ (by decide)]
        exact dictGet_setKey_self ..
      · rw [dictGet_setKey_ne _ _ _ _ (by decide)]
        exact dictGet_setKey_self ..
      · exact dictGet_setKey_self ..
      · intro d1 h1
        cases h1
        rfl
      · intro hne
        exact absurd rfl (hne d0)
  | str s0 =>
      exact ⟨_, rfl, by simp [dictGet], by simp [dictGet], by simp [dictGet], hse,
        fun d1 h1 => Val.noConfusion h1, fun _ => rfl⟩
  | num q0 =>
      exact ⟨_, rfl, by simp [dictGet], by simp [dictGet], by simp [dictGet], hse,
        fun d1 h1 => Val.noConfusion h1, fun _ => rfl⟩
  | listStr l0 =>
      exact ⟨_, rfl, by simp [dictGet], by simp [dictGet], by simp [dictGet], hse,
        fun d1 h1 => Val.noConfusion h1, fun _ => rfl⟩

/-- Witness for C5 at `s = 0`, `e = 1`, body result `"fine"` (a bare value). -/
theorem timed_process_timing_witness :
    ∃ d : Dict,
      timed_process 0 1 (Except.ok (Val.str "fine")) = Except.ok (Val.dict d)
      ∧ dictGet d "end_time" = some (Val.num 1)
      ∧ dictGet d "processing_duration" = some (Val.num (1 - 0)) := by
  obtain ⟨d, h1, _, h3, h4, _⟩ := timed_process_timing 0 1 (by norm_num) (Val.str "fine")
  exact ⟨d, h1, h3, h4⟩

/-- C6: across every sequence of calls to the Responsive stage's `process`
(starting from the empty buffer of `__init__`), the `context_history` buffer
never exceeds 5 entries; after each call the buffer's last element is the
content of the message just processed; and the current content is appended
to the buffer before the prompt is constructed — the prompt handed to the
backend is built from the already-updated buffer. -/
theorem responsive_history_invariant :
    (∀ inputs : List (Message × ChatFun), (responsiveRun [] inputs).length ≤ 5)
    ∧ (∀ (is0 : List (Message × ChatFun)) (m : Message) (c : ChatFun),
        (responsiveRun [] (is0 ++ [(m, c)])).getLast? = some (getContent m))
    ∧ (∀ (history : List String) (m : Message) (c : ChatFun),
        (ResponsiveLayer.process history m c).newState = takeLast 5 (history ++ [getContent m])
        ∧ (ResponsiveLayer.process history m c).prompt
            = responsiveContextPrompt ((ResponsiveLayer.process history m c).newState)
                (getContent m)) := by
  refine ⟨fun inputs => responsiveRun_length_le inputs [] (by simp), ?_, ?_⟩
  · intro is0 m c
    rw [responsiveRun_concat, ResponsiveLayer.process_newState]
    exact takeLast_concat_getLast 5 (by norm_num) _ _
  · intro history m c
    refine ⟨ResponsiveLayer.process_newState .., ?_⟩
    rw [ResponsiveLayer.process_prompt, ResponsiveLayer.process_newState]
    rfl

/-- C7: for the Reflective stage, a new pattern is appended only after the
backend call succeeds: when the backend call raises, the `learned_patterns`
buffer is unchanged by that `process` call (and the body re-raises the
tagged error). -/
theorem reflective_append_only_after_success (patterns : List String) (msg : Message)
    (chat : ChatFun) (e : String)
    (herr : chat reflectiveSystemPrompt (ReflectiveLayer.promptOf patterns msg)
      = Except.error e) :
    (ReflectiveLayer.process patterns msg chat).newState = patterns
    ∧ (ReflectiveLayer.process patterns msg chat).output
        = Except.error ("Reflective processing failed: " ++ e) := by
  constructor <;> simp [ReflectiveLayer.process, herr]

/-- Witness for C7: a failing backend call leaves a one-entry pattern buffer
unchanged. -/
theorem reflective_append_only_after_success_witness :
    (ReflectiveLayer.process ["p1"] msgW chatErrW).newState = ["p1"] :=
  (reflective_append_only_after_success ["p1"] msgW chatErrW "boom" rfl).1

/-- C10: for the Responsive stage, when the backend call raises, the current
content has nevertheless already been appended to `context_history` and is
retained as its last element — a failed Responsive `process` call still
mutates the stage's state (unlike the Reflective stage, C7). -/
theorem responsive_failure_still_mutates (history : List String) (msg : Message)
    (chat : ChatFun) (e : String)
    (herr : chat responsiveSystemPrompt (ResponsiveLayer.promptOf history msg)
      = Except.error e) :
    (ResponsiveLayer.process history msg chat).newState
        = takeLast 5 (history ++ [getContent msg])
    ∧ (ResponsiveLayer.process history msg chat).newState.getLast? = some (getContent msg)
    ∧ (ResponsiveLayer.process history msg chat).output
        = Except.error ("Responsive processing failed: " ++ e) := by
  refine ⟨ResponsiveLayer.process_newState .., ?_, ?_⟩
  · rw [ResponsiveLayer.process_newState]
    exact takeLast_concat_getLast 5 (by norm_num) _ _
  · simp [ResponsiveLayer.process, herr]

/-- Witness for C10: a failing backend call still appends the content. -/
theorem responsive_failure_still_mutates_witness :
    (ResponsiveLayer.process ["a"] msgW chatErrW).newState.getLast?
      = some (getContent msgW) :=
  (responsive_failure_still_mutates ["a"] msgW chatErrW "boom" rfl).2.1

/-- C3 counterexample: the claim that `learned_patterns` never exceeds 3
entries is false — the source appends on every successful call and never
evicts, so after 4 successful calls the buffer has 4 entries. -/
theorem reflective_buffer_exceeds_cap :
    ¬ ((reflectiveRun [] (List.replicate 4 (msgW, chatOkW))).length ≤ 3) := by
  have h4 : (reflectiveRun [] (List.replicate 4 (msgW, chatOkW))).length = 4 := rfl
  omega

/-- C3 as amended: the stored pattern buffer is unbounded — each successful
call appends the new completion with no eviction — but every read of the
buffer is bounded to the most recent 3 entries: the prompt context is built
from the last 3 entries (before the call), and the `patterns` snapshot in
the returned result is the last 3 entries of the updated buffer, so no
observation of the buffer ever exceeds 3 entries. -/
theorem reflective_snapshot_bounded (patterns : List String) (msg : Message)
    (chat : ChatFun) (resp : String)
    (hok : chat reflectiveSystemPrompt (ReflectiveLayer.promptOf patterns msg)
      = Except.ok resp) :
    (ReflectiveLayer.process patterns msg chat).newState = patterns ++ [resp]
    ∧ (ReflectiveLayer.process patterns msg chat).output
        = Except.ok (Val.dict
            [("type", Val.str "reflective_update"),
             ("content", Val.str resp),
             ("patterns", Val.listStr (takeLast 3 (patterns ++ [resp]))),
             ("source", Val.str MODEL_NAME)])
    ∧ (takeLast 3 (patterns ++ [resp])).length ≤ 3
    ∧ ReflectiveLayer.promptOf patterns msg
        = reflectiveAnalysisPrompt (String.intercalate "\n" (takeLast 3 patterns))
            (getContent msg)
    ∧ (takeLast 3 patterns).length ≤ 3 := by
  refine ⟨?_, ?_, takeLast_length_le 3 _, rfl, takeLast_length_le 3 _⟩ <;>
    simp [ReflectiveLayer.process, hok]

/-- Witness for C3's amended theorem: a successful call on a 3-entry buffer
appends (giving 4 stored entries) while the returned snapshot has 3. -/
theorem reflective_snapshot_bounded_witness :
    (ReflectiveLayer.process ["a", "b", "c"] msgW chatOkW).newState
        = ["a", "b", "c", "fine"]
    ∧ (takeLast 3 (["a", "b", "c"] ++ ["fine"])).length ≤ 3 :=
  ⟨(reflective_snapshot_bounded ["a", "b", "c"] msgW chatOkW "fine" rfl).1,
   (reflective_snapshot_bounded ["a", "b", "c"] msgW chatOkW "fine" rfl).2.2.1⟩

theorem reactiveEntry_ok (msg : Message) (chatR : ChatFun) (t : ℚ × ℚ) (r : String)
    (h : chatR reactiveSystemPrompt (ReactiveLayer.promptOf msg) = Except.ok r) :
    stageEntry "reactive" (timed_process t.1 t.2 (ReactiveLayer.process msg chatR))
      = reactiveSuccessEntry r t := by
  simp [ReactiveLayer.process, h, timed_process, setKey, stageEntry,
    reactiveSuccessEntry, timingFields]

theorem reactiveEntry_err (msg : Message) (chatR : ChatFun) (t : ℚ × ℚ) (e : String)
    (h : chatR reactiveSystemPrompt (ReactiveLayer.promptOf msg) = Except.error e) :
    stageEntry "reactive" (timed_process t.1 t.2 (ReactiveLayer.process msg chatR))
      = layerErrorEntry "reactive" ("Reactive processing failed: " ++ e) := by
  simp [ReactiveLayer.process, h, timed_process, stageEntry, layerErrorEntry]

theorem responsiveEntry_ok (history : List String) (msg : Message) (chatS : ChatFun)
    (t : ℚ × ℚ) (r : String)
    (h : chatS responsiveSystemPrompt (ResponsiveLayer.promptOf history msg) = Except.ok r) :
    stageEntry "responsive"
        (timed_process t.1 t.2 (ResponsiveLayer.process history msg chatS).output)
      = responsiveSuccessEntry r (takeLast 5 (history ++ [getContent msg])) t := by
  simp [ResponsiveLayer.process, h, timed_process, setKey, stageEntry,
    responsiveSuccessEntry, timingFields]

theorem responsiveEntry_err (history : List String) (msg : Message) (chatS : ChatFun)
    (t : ℚ × ℚ) (e : String)
    (h : chatS responsiveSystemPrompt (ResponsiveLayer.promptOf history msg)
      = Except.error e) :
    stageEntry "responsive"
        (timed_process t.1 t.2 (ResponsiveLayer.process history msg chatS).output)
      = layerErrorEntry "responsive" ("Responsive processing failed: " ++ e) := by
  simp [ResponsiveLayer.process, h, timed_process, stageEntry, layerErrorEntry]

theorem reflectiveEntry_ok (patterns : List String) (msg : Message) (chatF : ChatFun)
    (t : ℚ × ℚ) (r : String)
    (h : chatF reflectiveSystemPrompt (ReflectiveLayer.promptOf patterns msg)
      = Except.ok r) :
    stageEntry "reflective"
        (timed_process t.1 t.2 (ReflectiveLayer.process patterns msg chatF).output)
      = reflectiveSuccessEntry r (takeLast 3 (patterns ++ [r])) t := by
  simp [ReflectiveLayer.process, h, timed_process, setKey, stageEntry,
    reflectiveSuccessEntry, timingFields]

theorem reflectiveEntry_err (patterns : List String) (msg : Message) (chatF : ChatFun)
    (t : ℚ × ℚ) (e : String)
    (h : chatF reflectiveSystemPrompt (ReflectiveLayer.promptOf patterns msg)
      = Except.error e) :
    stageEntry "reflective"
        (timed_process t.1 t.2 (ReflectiveLayer.process patterns msg chatF).output)
      = layerErrorEntry "reflective" ("Reflective processing failed: " ++ e) := by
  simp [ReflectiveLayer.process, h, timed_process, stageEntry, layerErrorEntry]

theorem flushSeq_all_none (flushOut : String → Option String)
    (h : ∀ n, flushOut n = none) :
    flushSeq flushOut layerOrder = (layerOrder, none) := by
  simp [flushSeq, layerOrder, h]

/-- C1: for every input message (and whatever each backend call does), the
orchestrator's `process_message` produces a `results` mapping with exactly
one entry per registered stage, in the fixed key order reactive /
responsive / reflective, regardless of how many stages failed; when the
post-round flush succeeds the caller receives exactly this mapping; and a
failed stage yields a tagged error entry rather than a missing key. -/
theorem process_message_complete_mapping
    (st : NOVAState) (msg : Message) (chatR chatS chatF : ChatFun)
    (tR tS tF : ℚ × ℚ) (flushOut : String → Option String) (out : RoundOutcome)
    (hout : out = NOVA.process_message st msg chatR chatS chatF tR tS tF flushOut)
    (hflush : ∀ n, flushOut n = none) :
    out.results.map Prod.fst = layerOrder
    ∧ returnValue out = Except.ok out.results
    ∧ (∀ n ∈ layerOrder, (dictGet out.results n).isSome = true)
    ∧ (∀ e, chatR reactiveSystemPrompt (ReactiveLayer.promptOf msg) = Except.error e →
        dictGet out.results "reactive"
          = some (layerErrorEntry "reactive" ("Reactive processing failed: " ++ e)))
    ∧ (∀ e, chatS responsiveSystemPrompt (ResponsiveLayer.promptOf st.context_history msg)
          = Except.error e →
        dictGet out.results "responsive"
          = some (layerErrorEntry "responsive" ("Responsive processing failed: " ++ e)))
    ∧ (∀ e, chatF reflectiveSystemPrompt (ReflectiveLayer.promptOf st.learned_patterns msg)
          = Except.error e →
        dictGet out.results "reflective"
          = some (layerErrorEntry "reflective" ("Reflective processing failed: " ++ e)))
    := by
  subst hout
  refine ⟨?_, ?_, ?_, ?_, ?_, ?_⟩
  · simp [NOVA.process_message, layerOrder]
  · simp [returnValue, NOVA.process_message, flushSeq, layerOrder, hflush]
  · intro n hn
    simp only [layerOrder, List.mem_cons, List.not_mem_nil, or_false] at hn
    rcases hn with rfl | rfl | rfl <;> simp [NOVA.process_message, dictGet]
  · intro e h
    simp [NOVA.process_message, dictGet, reactiveEntry_err msg chatR tR e h]
  · intro e h
    simp [NOVA.process_message, dictGet, responsiveEntry_err st.context_history msg chatS tS e h]
  · intro e h
    simp [NOVA.process_message, dictGet, reflectiveEntry_err st.learned_patterns msg chatF tF e h]

/-- Witness for C1 with the Reflective backend failing and the flush
succeeding: the mapping still has exactly the three stage keys. -/
theorem process_message_complete_mapping_witness :
    (NOVA.process_message ⟨[], []⟩ msgW chatOkW chatOkW chatErrW (0, 1) (0, 1) (0, 1)
        flushOkW).results.map Prod.fst = layerOrder
    ∧ dictGet (NOVA.process_message ⟨[], []⟩ msgW chatOkW chatOkW chatErrW (0, 1) (0, 1)
        (0, 1) flushOkW).results "reflective"
      = some (layerErrorEntry "reflective" ("Reflective processing failed: " ++ "boom")) := by
  have h := process_message_complete_mapping ⟨[], []⟩ msgW chatOkW chatOkW chatErrW
    (0, 1) (0, 1) (0, 1) flushOkW _ rfl (fun n => rfl)
  exact ⟨h.1, h.2.2.2.2.2 "boom" rfl⟩

/-- C2: per-stage failures are caught at the orchestrator's per-stage await
boundary and converted to a tagged `<stage>_error` entry carrying the cause
chain, and they never propagate out of `process_message` (the round returns
its mapping whenever the flush succeeds); each stage's entry depends only on
that stage's own backend outcome, so when one stage fails the other stages'
entries are still present and are well-formed successes. -/
theorem process_message_failure_isolation
    (st : NOVAState) (msg : Message) (chatR chatS chatF : ChatFun)
    (tR tS tF : ℚ × ℚ) (flushOut : String → Option String) (out : RoundOutcome)
    (hout : out = NOVA.process_message st msg chatR chatS chatF tR tS tF flushOut)
    (hflush : ∀ n, flushOut n = none) :
    returnValue out = Except.ok out.results
    ∧ (∀ e, chatR reactiveSystemPrompt (ReactiveLayer.promptOf msg) = Except.error e →
        dictGet out.results "reactive"
          = some (layerErrorEntry "reactive" ("Reactive processing failed: " ++ e)))
    ∧ (∀ r, chatR reactiveSystemPrompt (ReactiveLayer.promptOf msg) = Except.ok r →
        dictGet out.results "reactive" = some (reactiveSuccessEntry r tR))
    ∧ (∀ e, chatS responsiveSystemPrompt (ResponsiveLayer.promptOf st.context_history msg)
          = Except.error e →
        dictGet out.results "responsive"
          = some (layerErrorEntry "responsive" ("Responsive processing failed: " ++ e)))
    ∧ (∀ r, chatS responsiveSystemPrompt (ResponsiveLayer.promptOf st.context_history msg)
          = Except.ok r →
        dictGet out.results "responsive"
          = some (responsiveSuccessEntry r
              (takeLast 5 (st.context_history ++ [getContent msg])) tS))
    ∧ (∀ e, chatF reflectiveSystemPrompt (ReflectiveLayer.promptOf st.learned_patterns msg)
          = Except.error e →
        dictGet out.results "reflective"
          = some (layerErrorEntry "reflective" ("Reflective processing failed: " ++ e)))
    ∧ (∀ r, chatF reflectiveSystemPrompt (ReflectiveLayer.promptOf st.learned_patterns msg)
          = Except.ok r →
        dictGet out.results "reflective"
          = some (reflectiveSuccessEntry r
              (takeLast 3 (st.learned_patterns ++ [r])) tF)) := by
  subst hout
  refine ⟨?_, ?_, ?_, ?_, ?_, ?_, ?_⟩
  · simp [returnValue, NOVA.process_message, flushSeq, layerOrder, hflush]
  · intro e h
    simp [NOVA.process_message, dictGet, reactiveEntry_err msg chatR tR e h]
  · intro r h
    simp [NOVA.process_message, dictGet, reactiveEntry_ok msg chatR tR r h]
  · intro e h
    simp [NOVA.process_message, dictGet, responsiveEntry_err st.context_history msg chatS tS e h]
  · intro r h
    simp [NOVA.process_message, dictGet, responsiveEntry_ok st.context_history msg chatS tS r h]
  · intro e h
    simp [NOVA.process_message, dictGet, reflectiveEntry_err st.learned_patterns msg chatF tF e h]
  · intro r h
    simp [NOVA.process_message, dictGet, reflectiveEntry_ok st.learned_patterns msg chatF tF r h]

/-- Witness for C2: with the Reflective backend raising and the other two
succeeding, the reflective entry is the tagged error and the reactive and
responsive entries are well-formed successes. -/
theorem process_message_failure_isolation_witness :
    dictGet (NOVA.process_message ⟨[], []⟩ msgW chatOkW chatOkW chatErrW (0, 1) (0, 1)
        (0, 1) flushOkW).results "reflective"
      = some (layerErrorEntry "reflective" ("Reflective processing failed: " ++ "boom"))
    ∧ dictGet (NOVA.process_message ⟨[], []⟩ msgW chatOkW chatOkW chatErrW (0, 1) (0, 1)
        (0, 1) flushOkW).results "reactive"
      = some (reactiveSuccessEntry "fine" (0, 1))
    ∧ dictGet (NOVA.process_message ⟨[], []⟩ msgW chatOkW chatOkW chatErrW (0, 1) (0, 1)
        (0, 1) flushOkW).results "responsive"
      = some (responsiveSuccessEntry "fine"
          (takeLast 5 ([] ++ [getContent msgW])) (0, 1)) := by
  have h := process_message_failure_isolation ⟨[], []⟩ msgW chatOkW chatOkW chatErrW
    (0, 1) (0, 1) (0, 1) flushOkW _ rfl (fun n => rfl)
  exact ⟨h.2.2.2.2.2.1 "boom" rfl, h.2.2.1 "fine" rfl, h.2.2.2.2.1 "fine" rfl⟩

/-- C8: after all stages have produced a result or an isolated error, the
post-round loop flushes every stage's producer in the fixed deterministic
order reactive / responsive / reflective — the backend oracles are arbitrary
here, so this holds however many stages failed — and a failure raised
during this flush propagates out of `process_message` as the terminal error
of the whole round instead of being isolated. -/
theorem process_message_flush_order_and_propagation
    (st : NOVAState) (msg : Message) (chatR chatS chatF : ChatFun)
    (tR tS tF : ℚ × ℚ) (flushOut : String → Option String) (out : RoundOutcome)
    (hout : out = NOVA.process_message st msg chatR chatS chatF tR tS tF flushOut) :
    ((∀ n, flushOut n = none) →
        out.flushed = layerOrder ∧ out.flushError = none
        ∧ returnValue out = Except.ok out.results)
    ∧ (∀ e, out.flushError = some e → returnValue out = Except.error e) := by
  subst hout
  constructor
  · intro hflush
    refine ⟨?_, ?_, ?_⟩ <;>
      simp [NOVA.process_message, returnValue, flushSeq, layerOrder, hflush]
  · intro e he
    simp [returnValue, he]

/-- Witness for C8: all-successful flushes happen in the fixed order, and a
raising first flush propagates as the round's error. -/
theorem process_message_flush_order_and_propagation_witness :
    (NOVA.process_message ⟨[], []⟩ msgW chatOkW chatOkW chatErrW (0, 1) (0, 1) (0, 1)
        flushOkW).flushed = layerOrder
    ∧ returnValue (NOVA.process_message ⟨[], []⟩ msgW chatOkW chatOkW chatOkW (0, 1)
        (0, 1) (0, 1) flushFailW) = Except.error "kafka down" := by
  have h1 := process_message_flush_order_and_propagation ⟨[], []⟩ msgW chatOkW chatOkW
    chatErrW (0, 1) (0, 1) (0, 1) flushOkW _ rfl
  have h2 := process_message_flush_order_and_propagation ⟨[], []⟩ msgW chatOkW chatOkW
    chatOkW (0, 1) (0, 1) (0, 1) flushFailW _ rfl
  refine ⟨(h1.1 (fun n => rfl)).1, h2.2 "kafka down" ?_⟩
  simp [NOVA.process_message, flushSeq, layerOrder, flushFailW]

/-- C4 (evidence for the code_bug verdict): the `tasks` dict of
`process_message` holds bare coroutine objects, not scheduled tasks, and the
per-stage await loop therefore runs each stage to completion before the next
one starts. The per-round event trace is the same fixed strictly-sequential
sequence for every input, every backend behaviour and every timing — each
stage settles before its sibling starts, so the stages are not launched
concurrently and their completion order can never vary, contradicting the
claimed fan-out concurrency. -/
theorem process_message_sequential_trace
    (st : NOVAState) (msg : Message) (chatR chatS chatF : ChatFun)
    (tR tS tF : ℚ × ℚ) (flushOut : String → Option String) :
    (NOVA.process_message st msg chatR chatS chatF tR tS tF flushOut).events
      = ["reactive_started", "reactive_settled", "responsive_started",
         "responsive_settled", "reflective_started", "reflective_settled"] := rfl

/-- A freshly acquired layer handle: empty producer queue and log, open
consumer. -/
def freshHandle : LayerHandle :=
  { producer := { pending := [], delivered := [] }
    consumer := { isOpen := true } }

/-- C9 counterexample: after `close()` a subsequent `publish` on the same
stage is not a no-op — the claim that the publish-after-close leaves the
handle unchanged is false on a fresh closed handle, because `close` only
flushes the producer and `publish` consults no closed flag, so the message
is enqueued as usual. -/
theorem publish_after_close_not_noop :
    ¬ (NOVALayer.publish (NOVALayer.close freshHandle) "nova_output"
        [("type", Val.str "reactive_response")] = NOVALayer.close freshHandle) := by
  intro heq
  have hlen := congrArg (fun h => h.producer.pending.length) heq
  simp [NOVALayer.publish, NOVALayer.close, produceMsg, flushProducer, freshHandle] at hlen

/-- C9 as amended: `close()` is idempotent — a second `close()` is the
identity on an already-closed handle, so it produces no error and no
duplicate publish (the settled publish log is unchanged) — but a publish
after `close()` is not a no-op: `close` never closes or marks the producer
(it only flushes it), so a subsequent `publish` still enqueues the message
for delivery exactly as on an open handle. -/
theorem close_idempotent_publish_behavior (h : LayerHandle) (topic : String) (m : Dict) :
    NOVALayer.close (NOVALayer.close h) = NOVALayer.close h
    ∧ (NOVALayer.close (NOVALayer.close h)).producer.delivered
        = (NOVALayer.close h).producer.delivered
    ∧ (NOVALayer.publish (NOVALayer.close h) topic m).producer.pending
        = (NOVALayer.close h).producer.pending ++ [(topic, m)]
    ∧ (NOVALayer.publish (NOVALayer.close h) topic m).producer.delivered
        = (NOVALayer.close h).producer.delivered := by
  refine ⟨?_, ?_, ?_, ?_⟩ <;>
    simp [NOVALayer.close, NOVALayer.publish, produceMsg, flushProducer]
